import Mathlib

/-!
Verification of the preview compositor in
`src/components/AssetPreviewNode.tsx` (PSD Procedural Logic Engine).

The layer trees, source documents, template registry, canvas context and
the render routine of `PreviewInstanceRow` are shallowly embedded below.
JavaScript numbers that carry coordinates, sizes and opacities are
modelled as rationals (`ℚ`); the one place where the code distinguishes
finite from non-finite numbers (`Number.isFinite(layer.opacity)`) is
modelled by the two-constructor type `JSNum`.  The 2D canvas context is
modelled as a record of drawing attributes plus a save/restore stack plus
an append-only trace of draw effects; each emitted effect records the
attribute snapshot under which it was issued.
-/

/-- A JavaScript number as far as the compositor inspects it: either a
finite value (a rational) or a non-finite one (`NaN`/`±Infinity`). -/
inductive JSNum where
  | fin (q : ℚ)
  | nonfinite
deriving DecidableEq, Repr

/-- `Number.isFinite`. -/
def JSNum.isFinite : JSNum → Bool
  | .fin _ => true
  | .nonfinite => false

/-- The `coords` rectangle of a transformed layer: `{x, y, w, h}`. -/
structure Coords where
  x : ℚ
  y : ℚ
  w : ℚ
  h : ℚ
deriving DecidableEq, Repr

/-- A node of the transformed layer tree (`TransformedLayer` in
`src/types`): identity, display name, `type` tag (the code only tests for
the value `"generative"`), `coords`, `transform.rotation` in degrees,
`opacity`, `isVisible`, and the optional ordered `children` list.  The
`children` field being `none` models the field being absent, `some []`
models a present-but-empty array; the source distinguishes the two
(`l.children` truthiness versus `l.children.length > 0`). -/
inductive TransformedLayer where
  | mk (id name type : String) (coords : Coords) (rotation : ℚ) (opacity : JSNum)
       (isVisible : Bool) (children : Option (List TransformedLayer))

def TransformedLayer.id : TransformedLayer → String
  | .mk i _ _ _ _ _ _ _ => i

def TransformedLayer.name : TransformedLayer → String
  | .mk _ n _ _ _ _ _ _ => n

def TransformedLayer.type : TransformedLayer → String
  | .mk _ _ t _ _ _ _ _ => t

def TransformedLayer.coords : TransformedLayer → Coords
  | .mk _ _ _ c _ _ _ _ => c

def TransformedLayer.rotation : TransformedLayer → ℚ
  | .mk _ _ _ _ r _ _ _ => r

def TransformedLayer.opacity : TransformedLayer → JSNum
  | .mk _ _ _ _ _ o _ _ => o

def TransformedLayer.isVisible : TransformedLayer → Bool
  | .mk _ _ _ _ _ _ v _ => v

def TransformedLayer.children : TransformedLayer → Option (List TransformedLayer)
  | .mk _ _ _ _ _ _ _ c => c

/-- `metrics.target` of a payload: the output canvas size in pixels
(integers ≥ 0 per the data-model invariant). -/
structure TargetMetrics where
  w : Nat
  h : Nat
deriving DecidableEq, Repr

structure Metrics where
  target : TargetMetrics
deriving DecidableEq, Repr

/-- `TransformedPayload`: the render input for one preview slot. -/
structure TransformedPayload where
  sourceNodeId : String
  targetContainer : String
  isPolished : Bool
  metrics : Metrics
  layers : List TransformedLayer

/-- A raster buffer attached to a source-document node
(`HTMLCanvasElement` as far as the compositor inspects it): its size, and
whether a `drawImage` from it throws (a tainted or unreadable buffer).
The latter models the fallible draw operation of claim C8. -/
structure SrcCanvas where
  width : Nat
  height : Nat
  faulty : Bool
deriving DecidableEq, Repr

/-- A node of a source document (`Layer` of `ag-psd`): optional name,
optional stable path-like identifier, optional raster buffer, optional
children. -/
inductive PsdLayer where
  | mk (name : Option String) (path : Option String) (canvas : Option SrcCanvas)
       (children : Option (List PsdLayer))

def PsdLayer.name : PsdLayer → Option String
  | .mk n _ _ _ => n

def PsdLayer.path : PsdLayer → Option String
  | .mk _ p _ _ => p

def PsdLayer.canvas : PsdLayer → Option SrcCanvas
  | .mk _ _ c _ => c

def PsdLayer.children : PsdLayer → Option (List PsdLayer)
  | .mk _ _ _ c => c

/-- A source document (`Psd` of `ag-psd`): the root's children. -/
structure Psd where
  children : Option (List PsdLayer)

/-- `bounds` of a template container (only `x` and `y` are read). -/
structure ContainerBounds where
  x : ℚ
  y : ℚ
deriving DecidableEq, Repr

/-- A template container: `name`, optional `originalName`, declared
`bounds`. -/
structure TemplateContainer where
  name : String
  originalName : Option String
  bounds : ContainerBounds
deriving DecidableEq, Repr

/-- `TemplateMetadata`: a registered template exposing its containers. -/
structure TemplateMetadata where
  containers : List TemplateContainer
deriving DecidableEq, Repr

/-! ## Deep leaf counter

Direct translation of `countDeepLeaves` (lines 16-26): for each node, if
`l.children` is truthy (present — note an empty array is truthy in
JavaScript) recurse into the children, otherwise count the node itself. -/

mutual

def countDeepLeaves : List TransformedLayer → Nat
  | [] => 0
  | l :: rest => countDeepLeavesNode l + countDeepLeaves rest

def countDeepLeavesNode : TransformedLayer → Nat
  | .mk _ _ _ _ _ _ _ (some cs) => countDeepLeaves cs
  | .mk _ _ _ _ _ _ _ none => 1

end

/-! Preorder flattening of a layer tree: every node of the tree, parents
before their descendants.  Used to state properties about "all nodes". -/

mutual

def allNodes : List TransformedLayer → List TransformedLayer
  | [] => []
  | l :: rest => allNodesOf l ++ allNodes rest

def allNodesOf : TransformedLayer → List TransformedLayer
  | .mk i n t c r o v (some cs) => .mk i n t c r o v (some cs) :: allNodes cs
  | .mk i n t c r o v none => [.mk i n t c r o v none]

end

/-! ## Layer name search

Direct translation of `findLayerByName` (lines 29-39): first child whose
`name` equals the query wins; otherwise recurse into each child's
children before moving to the next sibling. -/

mutual

def findLayerByName (children : Option (List PsdLayer)) (name : String) : Option PsdLayer :=
  match children with
  | none => none
  | some cs => findLayerByNameList cs name

def findLayerByNameList : List PsdLayer → String → Option PsdLayer
  | [], _ => none
  | .mk n p cv ch :: rest, name =>
    if n = some name then some (.mk n p cv ch)
    else
      match ch with
      | some cc =>
        match findLayerByNameList cc name with
        | some found => some found
        | none => findLayerByNameList rest name
      | none => findLayerByNameList rest name

end

def findLayerByPathList : List PsdLayer → String → Option PsdLayer
  | [], _ => none
  | .mk n p cv ch :: rest, id =>
    if p = some id then some (.mk n p cv ch)
    else
      match ch with
      | some cc =>
        match findLayerByPathList cc id with
        | some found => some found
        | none => findLayerByPathList rest id
      | none => findLayerByPathList rest id

/-- Modelled from the spec: `findLayerByPath` is imported from
`src/services/psdService`, which is not among the sources; per §4.2 of
the spec it is the first step of the fallback chain, an "exact
identifier/path lookup within the given document's node tree".  It is
modelled as a recursive search for the first node whose stable
path-like identifier equals the queried id. -/
def findLayerByPath (psd : Psd) (id : String) : Option PsdLayer :=
  match psd.children with
  | none => none
  | some cs => findLayerByPathList cs id

/-- The layer-resolution fallback chain applied per raster leaf
(lines 189-192): exact path lookup first, then the recursive name
search. -/
def resolveLayer (psd : Psd) (l : TransformedLayer) : Option PsdLayer :=
  match findLayerByPath psd l.id with
  | some found => some found
  | none => findLayerByName psd.children l.name

/-! ## Bounding-box scan

Translation of `scanBounds` (lines 125-136).  The four mutable variables
`minX`, `minY`, `maxX`, `maxY` start at `±Infinity` and are tightened by
every visible rectangle; all four leave infinity together, exactly when
the first visible rectangle is scanned, so the state is modelled as
`Option Bounds` with `none` standing for the initial all-infinite state.
Each update `if (v < minX) minX = v` is `min` (any finite value beats
`Infinity`), dually for `max`. -/

structure Bounds where
  minX : ℚ
  minY : ℚ
  maxX : ℚ
  maxY : ℚ
deriving DecidableEq, Repr

/-- Tighten the scan state by one visible rectangle. -/
def addRect (b : Option Bounds) (c : Coords) : Option Bounds :=
  match b with
  | none => some ⟨c.x, c.y, c.x + c.w, c.y + c.h⟩
  | some b => some ⟨min b.minX c.x, min b.minY c.y,
                    max b.maxX (c.x + c.w), max b.maxY (c.y + c.h)⟩

mutual

def scanBounds (b : Option Bounds) : List TransformedLayer → Option Bounds
  | [] => b
  | l :: rest => scanBounds (scanBoundsNode b l) rest

def scanBoundsNode (b : Option Bounds) : TransformedLayer → Option Bounds
  | .mk _ _ _ c _ _ true (some cs) => scanBounds (addRect b c) cs
  | .mk _ _ _ c _ _ true none => addRect b c
  | .mk _ _ _ _ _ _ false _ => b

end

/-! The `coords` rectangles collected by the scan, in scan order: a
visible node contributes its own rectangle and then (only then) its
children's; an invisible node contributes nothing and its subtree is
never entered. -/

mutual

def visRects : List TransformedLayer → List Coords
  | [] => []
  | l :: rest => visRectsNode l ++ visRects rest

def visRectsNode : TransformedLayer → List Coords
  | .mk _ _ _ c _ _ true (some cs) => c :: visRects cs
  | .mk _ _ _ c _ _ true none => [c]
  | .mk _ _ _ _ _ _ false _ => []

end

/-! ## Origin resolution -/

/-- `String.prototype.toLowerCase`, stated directly over the character
list (extensionally the same as `String.toLower`; the names compared in
this code are ASCII). -/
def jsToLowerCase (s : String) : String := ⟨s.data.map Char.toLower⟩

/-- The strict template-metadata lookup (lines 148-158): walk the
registered templates in registration order, inside each template find the
first container whose `name`, lowercased, equals the lowercased target
container name, and take the first such container's declared bounds;
default `(0,0)`. -/
def strictOrigin (templates : List TemplateMetadata) (target : String) : ℚ × ℚ :=
  match templates.findSome?
      (fun t => t.containers.find?
        (fun c => jsToLowerCase c.name == jsToLowerCase target)) with
  | some c => (c.bounds.x, c.bounds.y)
  | none => (0, 0)

/-- Camera-origin resolution (lines 114-159): scan the layer tree for the
bounding box of visible content (guarded by `layers.length > 0`, which is
immaterial since scanning an empty list leaves the state initial); in
auto-frame mode with at least one visible rectangle, center the content
box in the canvas; otherwise fall through to the strict template
lookup. -/
def resolveOrigin (autoFrame : Bool) (w h : ℚ) (layers : List TransformedLayer)
    (target : String) (templates : List TemplateMetadata) : ℚ × ℚ :=
  let b := if layers.length > 0 then scanBounds none layers else none
  match autoFrame, b with
  | true, some bb =>
    let contentW := bb.maxX - bb.minX
    let contentH := bb.maxY - bb.minY
    (bb.minX + (contentW - w) / 2, bb.minY + (contentH - h) / 2)
  | _, _ => strictOrigin templates target

/-! ## Canvas context model

The 2D context is modelled as the current drawing attributes, the
save/restore stack, and an append-only trace of draw effects.  Each
effect records the snapshot of attributes under which it was issued, so
the trace alone determines what is painted where, with which transform
and which alpha. -/

/-- A transform-changing context call.  `rotateDeg d` records the call
`ctx.rotate(d * π / 180)`; the constant radian conversion is kept
symbolic since only the degree amount varies. -/
inductive CtxOp where
  | translate (x y : ℚ)
  | rotateDeg (deg : ℚ)
deriving DecidableEq, Repr

/-- The context attributes that the compositor reads or writes. -/
structure CtxAttrs where
  fillStyle : String
  strokeStyle : String
  lineWidth : ℚ
  lineDash : List ℚ
  font : String
  globalAlpha : ℚ
  transform : List CtxOp
deriving DecidableEq, Repr

/-- One recorded draw call, with the attribute snapshot at issue time. -/
inductive DrawEffect where
  | fillRect (a : CtxAttrs) (x y w h : ℚ)
  | strokeRect (a : CtxAttrs) (x y w h : ℚ)
  | drawImage (a : CtxAttrs) (src : SrcCanvas) (x y w h : ℚ)
  | fillText (a : CtxAttrs) (s : String) (x y : ℚ)
  | strokeLine (a : CtxAttrs) (x1 y1 x2 y2 : ℚ)
deriving DecidableEq, Repr

structure Ctx where
  attrs : CtxAttrs
  stack : List CtxAttrs
  effects : List DrawEffect
deriving DecidableEq, Repr

/-- Fresh-context defaults of the attributes the compositor touches. -/
def defaultAttrs : CtxAttrs :=
  { fillStyle := "#000000", strokeStyle := "#000000", lineWidth := 1,
    lineDash := [], font := "10px sans-serif", globalAlpha := 1, transform := [] }

def initCtx : Ctx := { attrs := defaultAttrs, stack := [], effects := [] }

def Ctx.setFillStyle (c : Ctx) (s : String) : Ctx :=
  { c with attrs := { c.attrs with fillStyle := s } }

def Ctx.setStrokeStyle (c : Ctx) (s : String) : Ctx :=
  { c with attrs := { c.attrs with strokeStyle := s } }

def Ctx.setLineWidth (c : Ctx) (v : ℚ) : Ctx :=
  { c with attrs := { c.attrs with lineWidth := v } }

def Ctx.setLineDash (c : Ctx) (d : List ℚ) : Ctx :=
  { c with attrs := { c.attrs with lineDash := d } }

def Ctx.setFont (c : Ctx) (f : String) : Ctx :=
  { c with attrs := { c.attrs with font := f } }

/-- Assignment to `ctx.globalAlpha`.  Per the HTML canvas specification
the setter ignores values outside `[0,1]` (and non-finite values, which
cannot reach it here because the code filters them first), leaving the
previous alpha in place. -/
def Ctx.setGlobalAlpha (c : Ctx) (v : ℚ) : Ctx :=
  if 0 ≤ v ∧ v ≤ 1 then { c with attrs := { c.attrs with globalAlpha := v } } else c

def Ctx.translate (c : Ctx) (x y : ℚ) : Ctx :=
  { c with attrs := { c.attrs with transform := c.attrs.transform ++ [.translate x y] } }

def Ctx.rotateDeg (c : Ctx) (d : ℚ) : Ctx :=
  { c with attrs := { c.attrs with transform := c.attrs.transform ++ [.rotateDeg d] } }

def Ctx.save (c : Ctx) : Ctx := { c with stack := c.attrs :: c.stack }

def Ctx.restore (c : Ctx) : Ctx :=
  match c.stack with
  | [] => c
  | a :: rest => { c with attrs := a, stack := rest }

def Ctx.fillRect (c : Ctx) (x y w h : ℚ) : Ctx :=
  { c with effects := c.effects ++ [.fillRect c.attrs x y w h] }

def Ctx.strokeRect (c : Ctx) (x y w h : ℚ) : Ctx :=
  { c with effects := c.effects ++ [.strokeRect c.attrs x y w h] }

def Ctx.drawImage (c : Ctx) (src : SrcCanvas) (x y w h : ℚ) : Ctx :=
  { c with effects := c.effects ++ [.drawImage c.attrs src x y w h] }

def Ctx.fillText (c : Ctx) (s : String) (x y : ℚ) : Ctx :=
  { c with effects := c.effects ++ [.fillText c.attrs s x y] }

/-- The `beginPath`/`moveTo`/`lineTo`/`stroke` sequence of the
missing-pixels diagnostic, recorded as one stroked segment. -/
def Ctx.strokeLine (c : Ctx) (x1 y1 x2 y2 : ℚ) : Ctx :=
  { c with effects := c.effects ++ [.strokeLine c.attrs x1 y1 x2 y2] }

/-! ## Per-leaf painting

Direct translation of the leaf body of `drawLayers` (lines 172-277): the
diagnostics, rotation baking, alpha application and the fallible
`drawImage`, bracketed by `ctx.save()` / `ctx.restore()`.  A `drawImage`
from a `faulty` buffer throws and paints nothing; the `catch` block
paints the error diagnostic instead. -/

/-- The `originalLayer.name?.substring(0, 15) || 'Layer'` label base:
an absent name and an empty name (falsy in JavaScript) both fall back to
`"Layer"`. -/
def labelBase (name : Option String) : String :=
  let s := match name with
    | some n => n.take 15
    | none => ""
  if s = "" then "Layer" else s

def paintLeaf (sourcePsd : Option Psd) (originX originY : ℚ)
    (l : TransformedLayer) (ctx : Ctx) : Ctx :=
  let localX := l.coords.x - originX
  let localY := l.coords.y - originY
  let ctx := ctx.save
  let ctx :=
    if l.type = "generative" then
      let ctx := ctx.setFillStyle "rgba(192, 132, 252, 0.4)"
      let ctx := ctx.setStrokeStyle "#c084fc"
      let ctx := ctx.setLineWidth 2
      let ctx := ctx.setLineDash [4, 2]
      let ctx := ctx.fillRect localX localY l.coords.w l.coords.h
      ctx.strokeRect localX localY l.coords.w l.coords.h
    else
      match sourcePsd with
      | some psd =>
        match resolveLayer psd l with
        | some originalLayer =>
          match originalLayer.canvas with
          | some srcCanvas =>
            let ctx := ctx.setFillStyle "rgba(255, 255, 100, 0.1)"
            let ctx := ctx.fillRect localX localY l.coords.w l.coords.h
            let alpha := match l.opacity with
              | .fin q => q
              | .nonfinite => 1
            let ctx := ctx.setGlobalAlpha alpha
            let ctx :=
              if l.rotation ≠ 0 then
                let cx := localX + l.coords.w / 2
                let cy := localY + l.coords.h / 2
                let ctx := ctx.translate cx cy
                let ctx := ctx.rotateDeg l.rotation
                ctx.translate (-cx) (-cy)
              else ctx
            let ctx :=
              if srcCanvas.width > 0 ∧ srcCanvas.height > 0 then
                if srcCanvas.faulty then
                  let ctx := ctx.setFillStyle "rgba(255, 0, 0, 0.5)"
                  let ctx := ctx.fillRect localX localY l.coords.w l.coords.h
                  let ctx := ctx.setFillStyle "#fff"
                  let ctx := ctx.setFont "10px monospace"
                  ctx.fillText "DRAW ERR" (localX + 2) (localY + 12)
                else
                  ctx.drawImage srcCanvas localX localY l.coords.w l.coords.h
              else
                let ctx := ctx.setFillStyle "rgba(255, 0, 255, 0.2)"
                ctx.fillRect localX localY l.coords.w l.coords.h
            let ctx := ctx.setGlobalAlpha 1
            let ctx := ctx.setStrokeStyle "#06b6d4"
            let ctx := ctx.setLineWidth 1
            let ctx := ctx.setLineDash [2, 2]
            let ctx := ctx.strokeRect localX localY l.coords.w l.coords.h
            if l.coords.h > 10 then
              let ctx := ctx.setFillStyle "#06b6d4"
              let ctx := ctx.setFont "9px monospace"
              let dimLabel := " (" ++ toString srcCanvas.width ++ "x" ++
                toString srcCanvas.height ++ ")"
              ctx.fillText (labelBase originalLayer.name ++ dimLabel)
                (localX + 2) (localY + 8)
            else ctx
          | none =>
            let ctx := ctx.setGlobalAlpha 1
            let ctx := ctx.setStrokeStyle "#ef4444"
            let ctx := ctx.setLineWidth 2
            let ctx := ctx.strokeRect localX localY l.coords.w l.coords.h
            let ctx := ctx.strokeLine localX localY
              (localX + l.coords.w) (localY + l.coords.h)
            let ctx := ctx.setFillStyle "#ef4444"
            let ctx := ctx.setFont "10px monospace"
            ctx.fillText "NO PIXELS" (localX + 2) (localY + 12)
        | none =>
          let ctx := ctx.setGlobalAlpha 1
          let ctx := ctx.setStrokeStyle "#ef4444"
          let ctx := ctx.setLineWidth 2
          let ctx := ctx.strokeRect localX localY l.coords.w l.coords.h
          let ctx := ctx.strokeLine localX localY
            (localX + l.coords.w) (localY + l.coords.h)
          let ctx := ctx.setFillStyle "#ef4444"
          let ctx := ctx.setFont "10px monospace"
          ctx.fillText "NO PIXELS" (localX + 2) (localY + 12)
      | none =>
        let ctx := ctx.setGlobalAlpha 1
        let ctx := ctx.setFillStyle "rgba(255, 0, 0, 0.2)"
        ctx.fillRect localX localY l.coords.w l.coords.h
  ctx.restore

/-! ## Recursive paint traversal

Translation of the skeleton of `drawLayers` (lines 162-280): visible
groups with a non-empty children array only recurse; every other visible
node is painted as a leaf; invisible nodes are skipped wholesale. -/

mutual

def drawLayers (sourcePsd : Option Psd) (originX originY : ℚ) :
    List TransformedLayer → Ctx → Ctx
  | [], ctx => ctx
  | l :: rest, ctx =>
    drawLayers sourcePsd originX originY rest
      (drawNode sourcePsd originX originY l ctx)

def drawNode (sourcePsd : Option Psd) (originX originY : ℚ) :
    TransformedLayer → Ctx → Ctx
  | .mk i n t c r o true (some cs), ctx =>
    if cs.length > 0 then drawLayers sourcePsd originX originY cs ctx
    else paintLeaf sourcePsd originX originY (.mk i n t c r o true (some cs)) ctx
  | .mk i n t c r o true none, ctx =>
    paintLeaf sourcePsd originX originY (.mk i n t c r o true none) ctx
  | .mk _ _ _ _ _ _ false _, ctx => ctx

end

/-! ## Full render -/

/-- Checkerboard background (lines 102-112): `ceil(w/20)` columns and
`ceil(h/20)` rows of 20-pixel squares in two alternating fill styles. -/
def checkerboard (w h : Nat) (ctx : Ctx) : Ctx :=
  let squareSize : ℚ := 20
  let cols := (w + 19) / 20
  let rows := (h + 19) / 20
  (List.range rows).foldl (fun ctx r =>
    (List.range cols).foldl (fun ctx c =>
      let ctx := ctx.setFillStyle (if (r + c) % 2 == 0 then "#1e293b" else "#334155")
      ctx.fillRect ((c : ℚ) * squareSize) ((r : ℚ) * squareSize) squareSize squareSize)
      ctx) ctx

/-- Auto-frame indicator overlay (lines 287-293). -/
def autoFrameOverlay (h : Nat) (ctx : Ctx) : Ctx :=
  let ctx := ctx.save
  let ctx := ctx.setFillStyle "#06b6d4"
  let ctx := ctx.setFont "10px monospace"
  let ctx := ctx.fillText "AUTO-CENTER" 5 ((h : ℚ) - 5)
  ctx.restore

/-- The document registry, keyed by source node id, in registration
order (JavaScript object key order for string keys). -/
def PsdRegistry := List (String × Psd)

/-- `psdRegistry[id]` lookup. -/
def lookupPsd (reg : List (String × Psd)) (id : String) : Option Psd :=
  (reg.find? (fun p => p.1 == id)).map (·.2)

/-- The binary-recovery step (lines 85-91): the document registered for
the payload's declared source, else the first registered document. -/
def recoverPsd (reg : List (String × Psd)) (id : String) : Option Psd :=
  match lookupPsd reg id with
  | some psd => some psd
  | none => reg.head?.map (·.2)

/-- The whole render effect of the compositor `useEffect`
(lines 81-295) for one payload: binary recovery, the zero-size guard,
checkerboard, origin resolution, paint traversal, auto-frame overlay.
Returns `none` exactly when no surface is created. -/
def render (payload : TransformedPayload) (psdReg : List (String × Psd))
    (templates : List TemplateMetadata) (autoFrame : Bool) : Option Ctx :=
  let sourcePsd := recoverPsd psdReg payload.sourceNodeId
  let w := payload.metrics.target.w
  let h := payload.metrics.target.h
  if w = 0 ∨ h = 0 then none
  else
    let ctx := checkerboard w h initCtx
    let origin := resolveOrigin autoFrame (w : ℚ) (h : ℚ) payload.layers
      payload.targetContainer templates
    let ctx := drawLayers sourcePsd origin.1 origin.2 payload.layers ctx
    let ctx := if autoFrame then autoFrameOverlay h ctx else ctx
    some ctx

/-! ## Frame lemmas

`paintLeaf` brackets every leaf in `ctx.save()` / `ctx.restore()` and its
body never touches the stack, so painting a leaf returns the attributes
and the stack unchanged and appends an effect block that depends only on
the attributes at entry.  `leafFx`, `nodeFx` and `layersFx` name those
effect blocks. -/

/-- The effect block appended by painting one leaf from attributes `a`. -/
def leafFx (sourcePsd : Option Psd) (originX originY : ℚ)
    (l : TransformedLayer) (a : CtxAttrs) : List DrawEffect :=
  (paintLeaf sourcePsd originX originY l { attrs := a, stack := [], effects := [] }).effects

mutual

def layersFx (sourcePsd : Option Psd) (originX originY : ℚ) :
    List TransformedLayer → CtxAttrs → List DrawEffect
  | [], _ => []
  | l :: rest, a =>
    nodeFx sourcePsd originX originY l a ++ layersFx sourcePsd originX originY rest a

def nodeFx (sourcePsd : Option Psd) (originX originY : ℚ) :
    TransformedLayer → CtxAttrs → List DrawEffect
  | .mk i n t c r o true (some cs), a =>
    if cs.length > 0 then layersFx sourcePsd originX originY cs a
    else leafFx sourcePsd originX originY (.mk i n t c r o true (some cs)) a
  | .mk i n t c r o true none, a =>
    leafFx sourcePsd originX originY (.mk i n t c r o true none) a
  | .mk _ _ _ _ _ _ false _, _ => []

end

theorem paintLeaf_frame (sourcePsd : Option Psd) (ox oy : ℚ)
    (l : TransformedLayer) (ctx : Ctx) :
    paintLeaf sourcePsd ox oy l ctx =
      { attrs := ctx.attrs, stack := ctx.stack,
        effects := ctx.effects ++ leafFx sourcePsd ox oy l ctx.attrs } := by
  obtain ⟨a, s, e⟩ := ctx
  obtain ⟨i, n, t, c, r, o, v, ch⟩ := l
  by_cases hgen : t = "generative"
  · simp [leafFx, paintLeaf, TransformedLayer.type, TransformedLayer.coords, hgen,
      Ctx.save, Ctx.restore, Ctx.setFillStyle, Ctx.setStrokeStyle, Ctx.setLineWidth,
      Ctx.setLineDash, Ctx.fillRect, Ctx.strokeRect]
  · cases sourcePsd with
    | none =>
      simp [leafFx, paintLeaf, TransformedLayer.type, TransformedLayer.coords, hgen,
        Ctx.save, Ctx.restore, Ctx.setFillStyle, Ctx.setGlobalAlpha, Ctx.fillRect]
    | some psd =>
      rcases hr : resolveLayer psd (.mk i n t c r o v ch) with _ | ol
      · simp [leafFx, paintLeaf, TransformedLayer.type, TransformedLayer.coords, hgen, hr,
          Ctx.save, Ctx.restore, Ctx.setGlobalAlpha, Ctx.setStrokeStyle, Ctx.setLineWidth,
          Ctx.strokeRect, Ctx.strokeLine, Ctx.setFillStyle, Ctx.setFont, Ctx.fillText]
      · rcases hc : ol.canvas with _ | sc
        · simp [leafFx, paintLeaf, TransformedLayer.type, TransformedLayer.coords, hgen,
            hr, hc, Ctx.save, Ctx.restore, Ctx.setGlobalAlpha, Ctx.setStrokeStyle,
            Ctx.setLineWidth, Ctx.strokeRect, Ctx.strokeLine, Ctx.setFillStyle,
            Ctx.setFont, Ctx.fillText]
        · rcases o with q | _
          · by_cases halpha : 0 ≤ q ∧ q ≤ 1 <;>
            by_cases hrot : r ≠ 0 <;>
            by_cases hsz : sc.width > 0 ∧ sc.height > 0 <;>
            by_cases hfault : sc.faulty = true <;>
            by_cases hlab : c.h > 10 <;>
            simp [leafFx, paintLeaf, TransformedLayer.type, TransformedLayer.coords,
              TransformedLayer.rotation, TransformedLayer.opacity, hgen, hr, hc, hrot,
              hsz, hfault, hlab, halpha, Ctx.save, Ctx.restore, Ctx.setFillStyle,
              Ctx.setStrokeStyle, Ctx.setLineWidth, Ctx.setLineDash, Ctx.setFont,
              Ctx.setGlobalAlpha, Ctx.translate, Ctx.rotateDeg, Ctx.fillRect,
              Ctx.strokeRect, Ctx.drawImage, Ctx.fillText, Ctx.strokeLine,
              List.append_assoc]
          · by_cases hrot : r ≠ 0 <;>
            by_cases hsz : sc.width > 0 ∧ sc.height > 0 <;>
            by_cases hfault : sc.faulty = true <;>
            by_cases hlab : c.h > 10 <;>
            simp [leafFx, paintLeaf, TransformedLayer.type, TransformedLayer.coords,
              TransformedLayer.rotation, TransformedLayer.opacity, hgen, hr, hc, hrot,
              hsz, hfault, hlab, Ctx.save, Ctx.restore, Ctx.setFillStyle,
              Ctx.setStrokeStyle, Ctx.setLineWidth, Ctx.setLineDash, Ctx.setFont,
              Ctx.setGlobalAlpha, Ctx.translate, Ctx.rotateDeg, Ctx.fillRect,
              Ctx.strokeRect, Ctx.drawImage, Ctx.fillText, Ctx.strokeLine,
              List.append_assoc]

mutual

theorem drawLayers_frame (sourcePsd : Option Psd) (ox oy : ℚ) :
    ∀ (ls : List TransformedLayer) (ctx : Ctx),
      drawLayers sourcePsd ox oy ls ctx =
        { attrs := ctx.attrs, stack := ctx.stack,
          effects := ctx.effects ++ layersFx sourcePsd ox oy ls ctx.attrs }
  | [], ctx => by simp [drawLayers, layersFx]
  | l :: rest, ctx => by
    have h1 := drawNode_frame sourcePsd ox oy l ctx
    have h2 := drawLayers_frame sourcePsd ox oy rest (drawNode sourcePsd ox oy l ctx)
    simp only [drawLayers, layersFx]
    rw [h2, h1]
    simp [List.append_assoc]

theorem drawNode_frame (sourcePsd : Option Psd) (ox oy : ℚ) :
    ∀ (l : TransformedLayer) (ctx : Ctx),
      drawNode sourcePsd ox oy l ctx =
        { attrs := ctx.attrs, stack := ctx.stack,
          effects := ctx.effects ++ nodeFx sourcePsd ox oy l ctx.attrs }
  | .mk i n t c r o true (some cs), ctx => by
    by_cases hcs : cs.length > 0
    · have := drawLayers_frame sourcePsd ox oy cs ctx
      simp [drawNode, nodeFx, hcs, this]
    · simp [drawNode, nodeFx, hcs, paintLeaf_frame]
  | .mk i n t c r o true none, ctx => by
    simp [drawNode, nodeFx, paintLeaf_frame]
  | .mk i n t c r o false ch, ctx => by
    simp [drawNode, nodeFx]

end

/-- Painting a concatenation of sibling lists is painting the first list
and then the second. -/
theorem drawLayers_append (sourcePsd : Option Psd) (ox oy : ℚ)
    (as bs : List TransformedLayer) (ctx : Ctx) :
    drawLayers sourcePsd ox oy (as ++ bs) ctx =
      drawLayers sourcePsd ox oy bs (drawLayers sourcePsd ox oy as ctx) := by
  induction as generalizing ctx with
  | nil => simp [drawLayers]
  | cons l rest ih => simp [drawLayers, ih]

/-- Scanning a concatenation of sibling lists is scanning the first list
and then the second. -/
theorem scanBounds_append (b : Option Bounds) (as bs : List TransformedLayer) :
    scanBounds b (as ++ bs) = scanBounds (scanBounds b as) bs := by
  induction as generalizing b with
  | nil => simp [scanBounds]
  | cons l rest ih => simp [scanBounds, ih]

/-! ## Bounding-box scan characterization -/

mutual

theorem scanBounds_eq_fold (b : Option Bounds) :
    ∀ (ls : List TransformedLayer), scanBounds b ls = (visRects ls).foldl addRect b
  | [] => by simp [scanBounds, visRects]
  | l :: rest => by
    have h1 := scanBoundsNode_eq_fold b l
    have h2 := scanBounds_eq_fold (scanBoundsNode b l) rest
    simp only [scanBounds, visRects]
    rw [h2, h1, List.foldl_append]

theorem scanBoundsNode_eq_fold (b : Option Bounds) :
    ∀ (l : TransformedLayer), scanBoundsNode b l = (visRectsNode l).foldl addRect b
  | .mk i n t c r o true (some cs) => by
    have := scanBounds_eq_fold (addRect b c) cs
    simp [scanBoundsNode, visRectsNode, this]
  | .mk i n t c r o true none => by simp [scanBoundsNode, visRectsNode]
  | .mk i n t c r o false ch => by simp [scanBoundsNode, visRectsNode]

end

/-- Folding the scan update over a rectangle list from a finite state
computes the componentwise minima and maxima. -/
theorem foldl_addRect_some (rs : List Coords) (bb : Bounds) :
    rs.foldl addRect (some bb) =
      some ⟨(rs.map Coords.x).foldl min bb.minX,
            (rs.map Coords.y).foldl min bb.minY,
            (rs.map (fun c => c.x + c.w)).foldl max bb.maxX,
            (rs.map (fun c => c.y + c.h)).foldl max bb.maxY⟩ := by
  induction rs generalizing bb with
  | nil => simp
  | cons r rest ih => simp [addRect, ih]

/-- C1, amended: in auto-frame mode the resolved origin centers the
minimal axis-aligned bounding box of the recursively scanned visible
rectangles inside the canvas; with zero visible rectangles the resolver
does not return `(0,0)` but falls through to the strict template
lookup. -/
theorem autoFrame_origin_centers_visible_bbox (w h : ℚ) (ls : List TransformedLayer)
    (target : String) (templates : List TemplateMetadata) :
    resolveOrigin true w h ls target templates =
      match ((visRects ls).map Coords.x).min?, ((visRects ls).map Coords.y).min?,
            ((visRects ls).map (fun c => c.x + c.w)).max?,
            ((visRects ls).map (fun c => c.y + c.h)).max? with
      | some mnx, some mny, some mxx, some mxy =>
        (mnx + ((mxx - mnx) - w) / 2, mny + ((mxy - mny) - h) / 2)
      | _, _, _, _ => strictOrigin templates target := by
  cases ls with
  | nil => simp [resolveOrigin, visRects, List.min?, List.max?]
  | cons l rest =>
    have hb := scanBounds_eq_fold (b := none) (l :: rest)
    cases hv : visRects (l :: rest) with
    | nil => simp [resolveOrigin, hb, hv, List.min?, List.max?]
    | cons r rs =>
      have hfold : scanBounds none (l :: rest) =
          some ⟨(rs.map Coords.x).foldl min r.x,
                (rs.map Coords.y).foldl min r.y,
                (rs.map (fun c => c.x + c.w)).foldl max (r.x + r.w),
                (rs.map (fun c => c.y + c.h)).foldl max (r.y + r.h)⟩ := by
        rw [hb, hv]
        simpa [addRect] using foldl_addRect_some rs ⟨r.x, r.y, r.x + r.w, r.y + r.h⟩
      simp [resolveOrigin, hfold, hv, List.min?, List.max?]

/-- A template whose container `"Hero"` is declared only through
`originalName` (its `name` differs), followed by a container whose
`name` matches `"Hero"` case-insensitively but not exactly. -/
def tmplCase : TemplateMetadata :=
  ⟨[⟨"styx", some "Hero", ⟨5, 7⟩⟩, ⟨"HERO", none, ⟨11, 13⟩⟩]⟩

/-- C1 counterexample: auto-frame mode, zero visible nodes, one
registered template whose container name matches the target: the
resolved origin is the template's declared bounds, not `(0,0)`. -/
theorem autoFrame_origin_empty_tree_cex :
    resolveOrigin true 100 50 [] "Hero" [tmplCase] = (11, 13) ∧
    ((11 : ℚ), (13 : ℚ)) ≠ ((0 : ℚ), (0 : ℚ)) := by
  constructor
  · decide
  · decide

/-- Walking templates in order and taking each template's first matching
container is a single search over the concatenated container lists. -/
theorem findSome_containers_eq_flat (tpls : List TemplateMetadata)
    (p : TemplateContainer → Bool) :
    List.findSome? (fun t => t.containers.find? p) tpls =
      (tpls.flatMap TemplateMetadata.containers).find? p := by
  induction tpls with
  | nil => simp
  | cons t ts ih =>
    rw [List.findSome?_cons, List.flatMap_cons, List.find?_append, ← ih]
    cases h : t.containers.find? p <;> simp [h]

/-- C2, amended: in strict mode the origin is the declared bounds of the
first container, in registration order across the flattened container
lists, whose `name` matches the target container case-insensitively
(`originalName` is never consulted); absent a match, `(0,0)`. -/
theorem strict_origin_first_name_match (w h : ℚ) (ls : List TransformedLayer)
    (target : String) (templates : List TemplateMetadata) :
    resolveOrigin false w h ls target templates =
      match (templates.flatMap TemplateMetadata.containers).find?
          (fun c => jsToLowerCase c.name == jsToLowerCase target) with
      | some c => (c.bounds.x, c.bounds.y)
      | none => (0, 0) := by
  have hs : resolveOrigin false w h ls target templates = strictOrigin templates target := by
    simp only [resolveOrigin]
  rw [hs]
  simp only [strictOrigin, findSome_containers_eq_flat]

/-- C2 counterexample: with `tmplCase` registered and target `"Hero"`,
the exact name-or-`originalName` rule of the claim selects the first
container (bounds `(5,7)`), but the code matches the second container
(case-insensitive `name`-only match) and yields `(11,13)`. -/
theorem strict_origin_originalName_cex :
    resolveOrigin false 100 50 [] "Hero" [tmplCase] = (11, 13) ∧
    (tmplCase.containers.find?
        (fun c => c.name == "Hero" || c.originalName == some "Hero")) =
      some ⟨"styx", some "Hero", ⟨5, 7⟩⟩ ∧
    ((11 : ℚ), (13 : ℚ)) ≠ ((5 : ℚ), (7 : ℚ)) := by
  refine ⟨by decide, by decide, by decide⟩

/-- C4: a payload whose target metrics have zero width or height renders
nothing: no surface is created, the render is a well-defined no-op. -/
theorem render_zero_canvas_noop (payload : TransformedPayload)
    (psdReg : List (String × Psd)) (templates : List TemplateMetadata)
    (autoFrame : Bool)
    (hz : payload.metrics.target.w = 0 ∨ payload.metrics.target.h = 0) :
    render payload psdReg templates autoFrame = none := by
  simp [render, hz]

theorem render_zero_canvas_noop_witness :
    ((⟨"src", "Hero", false, ⟨⟨0, 7⟩⟩, []⟩ : TransformedPayload).metrics.target.w = 0 ∨
      (⟨"src", "Hero", false, ⟨⟨0, 7⟩⟩, []⟩ : TransformedPayload).metrics.target.h = 0) ∧
    render ⟨"src", "Hero", false, ⟨⟨0, 7⟩⟩, []⟩ [] [] true = none :=
  ⟨Or.inl rfl, render_zero_canvas_noop _ _ _ _ (Or.inl rfl)⟩

/-! ## Deep leaf count characterization -/

mutual

theorem countDeepLeaves_eq_filter :
    ∀ ls : List TransformedLayer,
      countDeepLeaves ls = ((allNodes ls).filter (fun l => l.children.isNone)).length
  | [] => by simp [countDeepLeaves, allNodes]
  | l :: rest => by
    have h1 := countDeepLeavesNode_eq_filter l
    have h2 := countDeepLeaves_eq_filter rest
    simp [countDeepLeaves, allNodes, h1, h2, List.filter_append]

theorem countDeepLeavesNode_eq_filter :
    ∀ l : TransformedLayer,
      countDeepLeavesNode l = ((allNodesOf l).filter (fun l => l.children.isNone)).length
  | .mk i n t c r o v (some cs) => by
    have := countDeepLeaves_eq_filter cs
    simp [countDeepLeavesNode, allNodesOf, TransformedLayer.children, this]
  | .mk i n t c r o v none => by
    simp [countDeepLeavesNode, allNodesOf, TransformedLayer.children]

end

/-- C6, amended: the deep leaf count equals the number of nodes in the
tree whose `children` field is absent — a pure function of the tree,
independent of visibility and of rendering.  (A node carrying a
present-but-empty `children` array contributes zero, unlike the claim's
"absent or empty" leaf notion.) -/
theorem deep_leaf_count_children_absent (ls : List TransformedLayer) :
    countDeepLeaves ls = ((allNodes ls).filter (fun l => l.children.isNone)).length :=
  countDeepLeaves_eq_filter ls

/-- A node whose `children` field is present but empty: a leaf by the
claim's definition ("absent or empty"), yet skipped by the counter. -/
def emptyChildrenGroup : TransformedLayer :=
  .mk "g1" "Group" "group" ⟨0, 0, 4, 4⟩ 0 (.fin 1) true (some [])

/-- C6 counterexample: the tree consisting of one node with an empty
`children` array has one leaf under the claim's "absent or empty"
definition, but `countDeepLeaves` returns 0. -/
theorem deep_leaf_count_empty_children_cex :
    countDeepLeaves [emptyChildrenGroup] = 0 ∧
    ((allNodes [emptyChildrenGroup]).filter
        (fun l => match l.children with
          | none => true
          | some cs => cs.isEmpty)).length = 1 ∧
    (0 : Nat) ≠ 1 := by
  refine ⟨?_, ?_, by decide⟩ <;>
  simp [countDeepLeaves, countDeepLeavesNode, allNodes, allNodesOf,
    emptyChildrenGroup, TransformedLayer.children]

/-! ## Invisibility -/

/-- C9: an invisible node — leaf or group — is inert: it leaves the
bounding-box scan state untouched, produces no draw effect, its subtree
is never entered, and removing it from any sibling list changes neither
the scan nor the paint traversal. -/
theorem invisible_node_inert (sourcePsd : Option Psd) (ox oy : ℚ)
    (l : TransformedLayer) (hv : l.isVisible = false) :
    (∀ b, scanBoundsNode b l = b) ∧
    (∀ ctx, drawNode sourcePsd ox oy l ctx = ctx) ∧
    (∀ b pre post, scanBounds b (pre ++ l :: post) = scanBounds b (pre ++ post)) ∧
    (∀ ctx pre post, drawLayers sourcePsd ox oy (pre ++ l :: post) ctx =
      drawLayers sourcePsd ox oy (pre ++ post) ctx) := by
  obtain ⟨i, n, t, c, r, o, v, ch⟩ := l
  simp only [TransformedLayer.isVisible] at hv
  subst hv
  refine ⟨fun b => by simp [scanBoundsNode], fun ctx => by simp [drawNode], ?_, ?_⟩
  · intro b pre post
    rw [scanBounds_append, scanBounds_append]
    simp [scanBounds, scanBoundsNode]
  · intro ctx pre post
    rw [drawLayers_append, drawLayers_append]
    simp [drawLayers, drawNode]

/-- An invisible raster leaf used as the concrete witness input. -/
def invisibleLeaf : TransformedLayer :=
  .mk "L9" "Hidden" "raster" ⟨3, 4, 5, 6⟩ 0 (.fin 1) false none

theorem invisible_node_inert_witness :
    invisibleLeaf.isVisible = false ∧
    scanBounds none [invisibleLeaf] = none ∧
    drawLayers none 0 0 [invisibleLeaf] initCtx = initCtx := by
  refine ⟨rfl, ?_, ?_⟩
  · have h := (invisible_node_inert none 0 0 invisibleLeaf rfl).2.2.1 none [] []
    simpa [scanBounds] using h
  · have h := (invisible_node_inert none 0 0 invisibleLeaf rfl).2.2.2 initCtx [] []
    simpa [drawLayers] using h

/-! ## Per-leaf state isolation -/

/-- C10: per-leaf graphics state is isolated.  Painting any sibling list
returns the context attributes (transform, alpha, styles) and the
save/restore stack exactly as they were, and only appends effects — so
the previously painted checkerboard is untouched, the effect block of
each leaf is a function of the attributes at entry alone, and the
traversal of a concatenation is the sequential traversal of its parts. -/
theorem per_leaf_state_isolated (sourcePsd : Option Psd) (ox oy : ℚ)
    (ls : List TransformedLayer) (ctx : Ctx) :
    drawLayers sourcePsd ox oy ls ctx =
      { attrs := ctx.attrs, stack := ctx.stack,
        effects := ctx.effects ++ layersFx sourcePsd ox oy ls ctx.attrs } ∧
    (∀ l : TransformedLayer, paintLeaf sourcePsd ox oy l ctx =
      { attrs := ctx.attrs, stack := ctx.stack,
        effects := ctx.effects ++ leafFx sourcePsd ox oy l ctx.attrs }) ∧
    (∀ pre post : List TransformedLayer,
      drawLayers sourcePsd ox oy (pre ++ post) ctx =
        drawLayers sourcePsd ox oy post (drawLayers sourcePsd ox oy pre ctx)) :=
  ⟨drawLayers_frame sourcePsd ox oy ls ctx,
   fun l => paintLeaf_frame sourcePsd ox oy l ctx,
   fun pre post => drawLayers_append sourcePsd ox oy pre post ctx⟩

/-! ## Per-leaf effect predicates -/

/-- Is the effect a (scaled) image draw? -/
def DrawEffect.isImage : DrawEffect → Bool
  | .drawImage _ _ _ _ _ _ => true
  | _ => false

/-- The attribute snapshot an effect was issued under. -/
def DrawEffect.attrsOf : DrawEffect → CtxAttrs
  | .fillRect a _ _ _ _ => a
  | .strokeRect a _ _ _ _ => a
  | .drawImage a _ _ _ _ _ => a
  | .fillText a _ _ _ => a
  | .strokeLine a _ _ _ _ => a

/-- Is the effect a rectangle fill issued with the given fill style? -/
def isFillStyled (s : String) : DrawEffect → Bool
  | .fillRect a _ _ _ _ => a.fillStyle == s
  | _ => false

/-- Is the effect a text draw of the given string? -/
def isTextDraw (s : String) : DrawEffect → Bool
  | .fillText _ t _ _ => t == s
  | _ => false

/-- C7: a raster leaf whose resolved buffer has zero width or zero
height paints the magenta "empty source" diagnostic fill and never
issues a scaled image draw. -/
theorem zero_size_buffer_empty_source_diag (psd : Psd) (ox oy : ℚ)
    (l : TransformedLayer) (a : CtxAttrs) (ol : PsdLayer) (sc : SrcCanvas)
    (hgen : l.type ≠ "generative") (hr : resolveLayer psd l = some ol)
    (hc : ol.canvas = some sc) (hsz : sc.width = 0 ∨ sc.height = 0) :
    (leafFx (some psd) ox oy l a).any (isFillStyled "rgba(255, 0, 255, 0.2)") = true ∧
    (leafFx (some psd) ox oy l a).all (fun e => !e.isImage) = true := by
  have hne : ¬(sc.width > 0 ∧ sc.height > 0) := by rcases hsz with h | h <;> omega
  obtain ⟨i, n, t, c, r, o, v, ch⟩ := l
  simp only [TransformedLayer.type] at hgen
  rcases o with q | _
  · by_cases halpha : 0 ≤ q ∧ q ≤ 1 <;>
    by_cases hrot : r ≠ 0 <;>
    by_cases hlab : c.h > 10 <;>
    simp [leafFx, paintLeaf, TransformedLayer.type, TransformedLayer.coords,
      TransformedLayer.rotation, TransformedLayer.opacity, hgen, hr, hc, hne,
      hrot, hlab, halpha, Ctx.save, Ctx.restore, Ctx.setFillStyle,
      Ctx.setStrokeStyle, Ctx.setLineWidth, Ctx.setLineDash, Ctx.setFont,
      Ctx.setGlobalAlpha, Ctx.translate, Ctx.rotateDeg, Ctx.fillRect,
      Ctx.strokeRect, Ctx.fillText, isFillStyled, DrawEffect.isImage]
  · by_cases hrot : r ≠ 0 <;>
    by_cases hlab : c.h > 10 <;>
    simp [leafFx, paintLeaf, TransformedLayer.type, TransformedLayer.coords,
      TransformedLayer.rotation, TransformedLayer.opacity, hgen, hr, hc, hne,
      hrot, hlab, Ctx.save, Ctx.restore, Ctx.setFillStyle,
      Ctx.setStrokeStyle, Ctx.setLineWidth, Ctx.setLineDash, Ctx.setFont,
      Ctx.setGlobalAlpha, Ctx.translate, Ctx.rotateDeg, Ctx.fillRect,
      Ctx.strokeRect, Ctx.fillText, isFillStyled, DrawEffect.isImage]

/-- Is the effect an image draw from the given source buffer? -/
def isImageFrom (src : SrcCanvas) : DrawEffect → Bool
  | .drawImage _ s _ _ _ _ => s == src
  | _ => false

/-- Painting a list with a distinguished middle node decomposes into the
prefix, the node, and the suffix, sequentially. -/
theorem drawLayers_middle (sourcePsd : Option Psd) (ox oy : ℚ)
    (l : TransformedLayer) (pre post : List TransformedLayer) (ctx : Ctx) :
    drawLayers sourcePsd ox oy (pre ++ l :: post) ctx =
      drawLayers sourcePsd ox oy post
        (drawNode sourcePsd ox oy l (drawLayers sourcePsd ox oy pre ctx)) := by
  rw [drawLayers_append]
  simp [drawLayers]

/-- C8: a `drawImage` fault on a raster leaf is caught for that leaf
alone: the leaf paints the red error fill and the `"DRAW ERR"` label, no
image draw is issued, the context state is handed back unchanged, and
the traversal of any surrounding sibling lists proceeds exactly as the
sequential composition around that leaf. -/
theorem draw_fault_caught_per_leaf (psd : Psd) (ox oy : ℚ)
    (l : TransformedLayer) (a : CtxAttrs) (ol : PsdLayer) (sc : SrcCanvas)
    (hgen : l.type ≠ "generative") (hr : resolveLayer psd l = some ol)
    (hc : ol.canvas = some sc) (hw : sc.width > 0) (hh : sc.height > 0)
    (hf : sc.faulty = true) :
    (leafFx (some psd) ox oy l a).any (isFillStyled "rgba(255, 0, 0, 0.5)") = true ∧
    (leafFx (some psd) ox oy l a).any (isTextDraw "DRAW ERR") = true ∧
    (leafFx (some psd) ox oy l a).all (fun e => !e.isImage) = true ∧
    (∀ ctx, paintLeaf (some psd) ox oy l ctx =
      { attrs := ctx.attrs, stack := ctx.stack,
        effects := ctx.effects ++ leafFx (some psd) ox oy l ctx.attrs }) ∧
    (∀ (ctx : Ctx) (pre post : List TransformedLayer),
      drawLayers (some psd) ox oy (pre ++ l :: post) ctx =
        drawLayers (some psd) ox oy post
          (drawNode (some psd) ox oy l (drawLayers (some psd) ox oy pre ctx))) := by
  have hpos : sc.width > 0 ∧ sc.height > 0 := ⟨hw, hh⟩
  refine ⟨?_, ?_, ?_, fun ctx => paintLeaf_frame (some psd) ox oy l ctx,
    fun ctx pre post => drawLayers_middle (some psd) ox oy l pre post ctx⟩ <;>
  · obtain ⟨i, n, t, c, r, o, v, ch⟩ := l
    simp only [TransformedLayer.type] at hgen
    rcases o with q | _ <;>
    first
    | (by_cases halpha : 0 ≤ q ∧ q ≤ 1 <;>
       by_cases hrot : r ≠ 0 <;>
       by_cases hlab : c.h > 10 <;>
       simp [leafFx, paintLeaf, TransformedLayer.type, TransformedLayer.coords,
         TransformedLayer.rotation, TransformedLayer.opacity, hgen, hr, hc, hpos,
         hf, hrot, hlab, halpha, Ctx.save, Ctx.restore, Ctx.setFillStyle,
         Ctx.setStrokeStyle, Ctx.setLineWidth, Ctx.setLineDash, Ctx.setFont,
         Ctx.setGlobalAlpha, Ctx.translate, Ctx.rotateDeg, Ctx.fillRect,
         Ctx.strokeRect, Ctx.fillText, isFillStyled, isTextDraw, DrawEffect.isImage])
    | (by_cases hrot : r ≠ 0 <;>
       by_cases hlab : c.h > 10 <;>
       simp [leafFx, paintLeaf, TransformedLayer.type, TransformedLayer.coords,
         TransformedLayer.rotation, TransformedLayer.opacity, hgen, hr, hc, hpos,
         hf, hrot, hlab, Ctx.save, Ctx.restore, Ctx.setFillStyle,
         Ctx.setStrokeStyle, Ctx.setLineWidth, Ctx.setLineDash, Ctx.setFont,
         Ctx.setGlobalAlpha, Ctx.translate, Ctx.rotateDeg, Ctx.fillRect,
         Ctx.strokeRect, Ctx.fillText, isFillStyled, isTextDraw, DrawEffect.isImage])

/-- C3: when the exact identifier/path lookup misses, the resolution
falls back to the recursive name search over the same document, and a
leaf resolved that way paints the name-matched pixel buffer. -/
theorem name_fallback_renders_buffer (psd : Psd) (ox oy : ℚ)
    (l : TransformedLayer) (a : CtxAttrs) (ol : PsdLayer) (sc : SrcCanvas)
    (hgen : l.type ≠ "generative")
    (hpath : findLayerByPath psd l.id = none)
    (hname : findLayerByName psd.children l.name = some ol)
    (hc : ol.canvas = some sc) (hw : sc.width > 0) (hh : sc.height > 0)
    (hf : sc.faulty = false) :
    resolveLayer psd l = some ol ∧
    (leafFx (some psd) ox oy l a).any (isImageFrom sc) = true := by
  have hr : resolveLayer psd l = some ol := by simp [resolveLayer, hpath, hname]
  have hpos : sc.width > 0 ∧ sc.height > 0 := ⟨hw, hh⟩
  refine ⟨hr, ?_⟩
  obtain ⟨i, n, t, c, r, o, v, ch⟩ := l
  simp only [TransformedLayer.type] at hgen
  rcases o with q | _ <;>
  first
  | (by_cases halpha : 0 ≤ q ∧ q ≤ 1 <;>
     by_cases hrot : r ≠ 0 <;>
     by_cases hlab : c.h > 10 <;>
     simp [leafFx, paintLeaf, TransformedLayer.type, TransformedLayer.coords,
       TransformedLayer.rotation, TransformedLayer.opacity, hgen, hr, hc, hpos,
       hf, hrot, hlab, halpha, Ctx.save, Ctx.restore, Ctx.setFillStyle,
       Ctx.setStrokeStyle, Ctx.setLineWidth, Ctx.setLineDash, Ctx.setFont,
       Ctx.setGlobalAlpha, Ctx.translate, Ctx.rotateDeg, Ctx.fillRect,
       Ctx.strokeRect, Ctx.drawImage, Ctx.fillText, isImageFrom])
  | (by_cases hrot : r ≠ 0 <;>
     by_cases hlab : c.h > 10 <;>
     simp [leafFx, paintLeaf, TransformedLayer.type, TransformedLayer.coords,
       TransformedLayer.rotation, TransformedLayer.opacity, hgen, hr, hc, hpos,
       hf, hrot, hlab, Ctx.save, Ctx.restore, Ctx.setFillStyle,
       Ctx.setStrokeStyle, Ctx.setLineWidth, Ctx.setLineDash, Ctx.setFont,
       Ctx.setGlobalAlpha, Ctx.translate, Ctx.rotateDeg, Ctx.fillRect,
       Ctx.strokeRect, Ctx.drawImage, Ctx.fillText, isImageFrom])

/-- The alpha actually carried by the single scaled image draw of a
successfully resolved raster leaf, as a function of the layer opacity. -/
theorem rasterDrawAlphaAux (psd : Psd) (ox oy : ℚ)
    (l : TransformedLayer) (a : CtxAttrs) (ol : PsdLayer) (sc : SrcCanvas)
    (ha : a.globalAlpha = 1)
    (hgen : l.type ≠ "generative") (hr : resolveLayer psd l = some ol)
    (hc : ol.canvas = some sc) (hw : sc.width > 0) (hh : sc.height > 0)
    (hf : sc.faulty = false) :
    ((leafFx (some psd) ox oy l a).filter DrawEffect.isImage).map
        (fun e => e.attrsOf.globalAlpha) =
      [match l.opacity with
       | .fin q => if 0 ≤ q ∧ q ≤ 1 then q else 1
       | .nonfinite => 1] := by
  have hpos : sc.width > 0 ∧ sc.height > 0 := ⟨hw, hh⟩
  obtain ⟨i, n, t, c, r, o, v, ch⟩ := l
  simp only [TransformedLayer.type] at hgen
  rcases o with q | _ <;>
  first
  | (by_cases halpha : 0 ≤ q ∧ q ≤ 1 <;>
     by_cases hrot : r ≠ 0 <;>
     by_cases hlab : c.h > 10 <;>
     simp [leafFx, paintLeaf, TransformedLayer.type, TransformedLayer.coords,
       TransformedLayer.rotation, TransformedLayer.opacity, hgen, hr, hc, hpos,
       hf, hrot, hlab, halpha, ha, Ctx.save, Ctx.restore, Ctx.setFillStyle,
       Ctx.setStrokeStyle, Ctx.setLineWidth, Ctx.setLineDash, Ctx.setFont,
       Ctx.setGlobalAlpha, Ctx.translate, Ctx.rotateDeg, Ctx.fillRect,
       Ctx.strokeRect, Ctx.drawImage, Ctx.fillText, DrawEffect.isImage,
       DrawEffect.attrsOf])
  | (by_cases hrot : r ≠ 0 <;>
     by_cases hlab : c.h > 10 <;>
     simp [leafFx, paintLeaf, TransformedLayer.type, TransformedLayer.coords,
       TransformedLayer.rotation, TransformedLayer.opacity, hgen, hr, hc, hpos,
       hf, hrot, hlab, ha, Ctx.save, Ctx.restore, Ctx.setFillStyle,
       Ctx.setStrokeStyle, Ctx.setLineWidth, Ctx.setLineDash, Ctx.setFont,
       Ctx.setGlobalAlpha, Ctx.translate, Ctx.rotateDeg, Ctx.fillRect,
       Ctx.strokeRect, Ctx.drawImage, Ctx.fillText, DrawEffect.isImage,
       DrawEffect.attrsOf])

/-- A generative leaf never touches the alpha: both of its placeholder
effects (fill and dashed outline) are issued at the entry alpha. -/
theorem genLeafAlphaAux (sourcePsd : Option Psd) (ox oy : ℚ)
    (l : TransformedLayer) (a : CtxAttrs) (hg : l.type = "generative") :
    (leafFx sourcePsd ox oy l a).map (fun e => e.attrsOf.globalAlpha) =
      [a.globalAlpha, a.globalAlpha] := by
  obtain ⟨i, n, t, c, r, o, v, ch⟩ := l
  simp only [TransformedLayer.type] at hg
  simp [leafFx, paintLeaf, TransformedLayer.type, TransformedLayer.coords, hg,
    Ctx.save, Ctx.restore, Ctx.setFillStyle, Ctx.setStrokeStyle, Ctx.setLineWidth,
    Ctx.setLineDash, Ctx.fillRect, Ctx.strokeRect, DrawEffect.attrsOf]

/-- C5, amended: opacity acts as a uniform alpha only for raster leaves
with a resolved pixel buffer — the scaled image draw carries the raw
`opacity` value when it is a finite number inside `[0,1]`; a non-finite
opacity is replaced by `1.0` by the code, and a finite out-of-range
opacity is ignored by the canvas alpha setter, leaving the draw at the
entry alpha (`1.0` in a real render) — no clamping occurs.  A generative
leaf's placeholder is painted at the entry alpha with its fixed
translucent styles; its opacity is never applied. -/
theorem raster_draw_alpha_rule (psd : Psd) (ox oy : ℚ)
    (l : TransformedLayer) (a : CtxAttrs) (ol : PsdLayer) (sc : SrcCanvas)
    (ha : a.globalAlpha = 1)
    (hgen : l.type ≠ "generative") (hr : resolveLayer psd l = some ol)
    (hc : ol.canvas = some sc) (hw : sc.width > 0) (hh : sc.height > 0)
    (hf : sc.faulty = false) :
    ((leafFx (some psd) ox oy l a).filter DrawEffect.isImage).map
        (fun e => e.attrsOf.globalAlpha) =
      [match l.opacity with
       | .fin q => if 0 ≤ q ∧ q ≤ 1 then q else 1
       | .nonfinite => 1] ∧
    (∀ (lg : TransformedLayer) (a2 : CtxAttrs) (psd2 : Option Psd),
      lg.type = "generative" →
        (leafFx psd2 ox oy lg a2).map (fun e => e.attrsOf.globalAlpha) =
          [a2.globalAlpha, a2.globalAlpha]) :=
  ⟨rasterDrawAlphaAux psd ox oy l a ol sc ha hgen hr hc hw hh hf,
   fun lg a2 psd2 hg => genLeafAlphaAux psd2 ox oy lg a2 hg⟩

/-! ## Concrete fixtures for witnesses and counterexamples -/

def srcCanvasOk : SrcCanvas := ⟨4, 4, false⟩

def srcCanvasZero : SrcCanvas := ⟨0, 5, false⟩

def srcCanvasBad : SrcCanvas := ⟨4, 4, true⟩

/-- A one-node document whose node is named `"Bg"`, carries the given
identifier and buffer. -/
def docNode (p : String) (cv : SrcCanvas) : PsdLayer := .mk (some "Bg") (some p) (some cv) none

def docWith (p : String) (cv : SrcCanvas) : Psd := ⟨some [docNode p cv]⟩

/-- A visible raster leaf `id "L1"`, `name "Bg"`, no rotation, 8×8. -/
def rasterLeaf (op : JSNum) : TransformedLayer :=
  .mk "L1" "Bg" "raster" ⟨0, 0, 8, 8⟩ 0 op true none

theorem zero_size_buffer_empty_source_diag_witness :
    (rasterLeaf (.fin 1)).type ≠ "generative" ∧
    resolveLayer (docWith "L1" srcCanvasZero) (rasterLeaf (.fin 1)) =
      some (docNode "L1" srcCanvasZero) ∧
    (docNode "L1" srcCanvasZero).canvas = some srcCanvasZero ∧
    (srcCanvasZero.width = 0 ∨ srcCanvasZero.height = 0) ∧
    (leafFx (some (docWith "L1" srcCanvasZero)) 0 0 (rasterLeaf (.fin 1))
        defaultAttrs).any (isFillStyled "rgba(255, 0, 255, 0.2)") = true := by
  have hgen : (rasterLeaf (.fin 1)).type ≠ "generative" := by
    simp [rasterLeaf, TransformedLayer.type]
  have hr : resolveLayer (docWith "L1" srcCanvasZero) (rasterLeaf (.fin 1)) =
      some (docNode "L1" srcCanvasZero) := by
    simp [resolveLayer, findLayerByPath, findLayerByPathList, docWith, docNode,
      rasterLeaf, TransformedLayer.id, PsdLayer.path]
  exact ⟨hgen, hr, rfl, Or.inl rfl,
    (zero_size_buffer_empty_source_diag (docWith "L1" srcCanvasZero) 0 0
      (rasterLeaf (.fin 1)) defaultAttrs (docNode "L1" srcCanvasZero) srcCanvasZero
      hgen hr rfl (Or.inl rfl)).1⟩

theorem draw_fault_caught_per_leaf_witness :
    (rasterLeaf (.fin 1)).type ≠ "generative" ∧
    resolveLayer (docWith "L1" srcCanvasBad) (rasterLeaf (.fin 1)) =
      some (docNode "L1" srcCanvasBad) ∧
    srcCanvasBad.faulty = true ∧
    (leafFx (some (docWith "L1" srcCanvasBad)) 0 0 (rasterLeaf (.fin 1))
        defaultAttrs).any (isFillStyled "rgba(255, 0, 0, 0.5)") = true ∧
    (leafFx (some (docWith "L1" srcCanvasBad)) 0 0 (rasterLeaf (.fin 1))
        defaultAttrs).all (fun e => !e.isImage) = true := by
  have hgen : (rasterLeaf (.fin 1)).type ≠ "generative" := by
    simp [rasterLeaf, TransformedLayer.type]
  have hr : resolveLayer (docWith "L1" srcCanvasBad) (rasterLeaf (.fin 1)) =
      some (docNode "L1" srcCanvasBad) := by
    simp [resolveLayer, findLayerByPath, findLayerByPathList, docWith, docNode,
      rasterLeaf, TransformedLayer.id, PsdLayer.path]
  have h := draw_fault_caught_per_leaf (docWith "L1" srcCanvasBad) 0 0
    (rasterLeaf (.fin 1)) defaultAttrs (docNode "L1" srcCanvasBad) srcCanvasBad
    hgen hr rfl (by decide) (by decide) rfl
  exact ⟨hgen, hr, rfl, h.1, h.2.2.1⟩

theorem name_fallback_renders_buffer_witness :
    findLayerByPath (docWith "OLD" srcCanvasOk) (rasterLeaf (.fin 1)).id = none ∧
    findLayerByName (docWith "OLD" srcCanvasOk).children (rasterLeaf (.fin 1)).name =
      some (docNode "OLD" srcCanvasOk) ∧
    resolveLayer (docWith "OLD" srcCanvasOk) (rasterLeaf (.fin 1)) =
      some (docNode "OLD" srcCanvasOk) ∧
    (leafFx (some (docWith "OLD" srcCanvasOk)) 0 0 (rasterLeaf (.fin 1))
        defaultAttrs).any (isImageFrom srcCanvasOk) = true := by
  have hgen : (rasterLeaf (.fin 1)).type ≠ "generative" := by
    simp [rasterLeaf, TransformedLayer.type]
  have hpath : findLayerByPath (docWith "OLD" srcCanvasOk) (rasterLeaf (.fin 1)).id = none := by
    simp [findLayerByPath, findLayerByPathList, docWith, docNode, rasterLeaf,
      TransformedLayer.id, PsdLayer.path]
  have hname : findLayerByName (docWith "OLD" srcCanvasOk).children
      (rasterLeaf (.fin 1)).name = some (docNode "OLD" srcCanvasOk) := by
    simp [findLayerByName, findLayerByNameList, docWith, docNode, rasterLeaf,
      TransformedLayer.name, PsdLayer.name]
  have h := name_fallback_renders_buffer (docWith "OLD" srcCanvasOk) 0 0
    (rasterLeaf (.fin 1)) defaultAttrs (docNode "OLD" srcCanvasOk) srcCanvasOk
    hgen hpath hname rfl (by decide) (by decide) rfl
  exact ⟨hpath, hname, h.1, h.2⟩

theorem raster_draw_alpha_rule_witness :
    defaultAttrs.globalAlpha = 1 ∧
    ((leafFx (some (docWith "L1" srcCanvasOk)) 0 0 (rasterLeaf (.fin (1/3)))
        defaultAttrs).filter DrawEffect.isImage).map
      (fun e => e.attrsOf.globalAlpha) = [1/3] ∧
    (leafFx none 0 0 (.mk "G1" "Gen" "generative" ⟨0, 0, 8, 8⟩ 0 (.fin (1/3))
        true none) defaultAttrs).map
      (fun e => e.attrsOf.globalAlpha) = [1, 1] := by
  have hgen : (rasterLeaf (.fin (1/3))).type ≠ "generative" := by
    simp [rasterLeaf, TransformedLayer.type]
  have hr : resolveLayer (docWith "L1" srcCanvasOk) (rasterLeaf (.fin (1/3))) =
      some (docNode "L1" srcCanvasOk) := by
    simp [resolveLayer, findLayerByPath, findLayerByPathList, docWith, docNode,
      rasterLeaf, TransformedLayer.id, PsdLayer.path]
  have h := raster_draw_alpha_rule (docWith "L1" srcCanvasOk) 0 0
    (rasterLeaf (.fin (1/3))) defaultAttrs (docNode "L1" srcCanvasOk) srcCanvasOk
    rfl hgen hr rfl (by decide) (by decide) rfl
  refine ⟨rfl, ?_, ?_⟩
  · rw [h.1]
    norm_num [rasterLeaf, TransformedLayer.opacity]
  · have hg := h.2 (.mk "G1" "Gen" "generative" ⟨0, 0, 8, 8⟩ 0 (.fin (1/3))
      true none) defaultAttrs none (by simp [TransformedLayer.type])
    simpa [defaultAttrs] using hg

/-- Clamping a number into `[0,1]`, as the claim's "clamped to [0,1]"
prescribes. -/
def clamp01 (q : ℚ) : ℚ := max 0 (min 1 q)

/-- A visible generative leaf with opacity `1/2`. -/
def genLeafHalf : TransformedLayer :=
  .mk "G1" "Gen" "generative" ⟨0, 0, 8, 8⟩ 0 (.fin (1/2)) true none

/-- C5 counterexample: (i) a raster leaf with finite opacity `-1/2` is
drawn at alpha `1` (the out-of-range assignment is ignored), while
clamping to `[0,1]` would give `0`; (ii) a generative leaf with opacity
`1/2` is painted entirely at alpha `1` with its fixed translucent styles
— its opacity is never applied at all. -/
theorem opacity_clamped_uniform_cex :
    ((leafFx (some (docWith "L1" srcCanvasOk)) 0 0 (rasterLeaf (.fin (-(1/2))))
        defaultAttrs).filter DrawEffect.isImage).map
      (fun e => e.attrsOf.globalAlpha) = [1] ∧
    clamp01 (-(1/2)) = 0 ∧ (1 : ℚ) ≠ 0 ∧
    (leafFx none 0 0 genLeafHalf defaultAttrs).map
      (fun e => e.attrsOf.globalAlpha) = [1, 1] ∧
    (1 : ℚ) ≠ 1/2 := by
  have hgen : (rasterLeaf (.fin (-(1/2)))).type ≠ "generative" := by
    simp [rasterLeaf, TransformedLayer.type]
  have hr : resolveLayer (docWith "L1" srcCanvasOk) (rasterLeaf (.fin (-(1/2)))) =
      some (docNode "L1" srcCanvasOk) := by
    simp [resolveLayer, findLayerByPath, findLayerByPathList, docWith, docNode,
      rasterLeaf, TransformedLayer.id, PsdLayer.path]
  have h := rasterDrawAlphaAux (docWith "L1" srcCanvasOk) 0 0
    (rasterLeaf (.fin (-(1/2)))) defaultAttrs (docNode "L1" srcCanvasOk) srcCanvasOk
    rfl hgen hr rfl (by decide) (by decide) rfl
  refine ⟨?_, ?_, by norm_num, ?_, by norm_num⟩
  · rw [h]
    norm_num [rasterLeaf, TransformedLayer.opacity]
  · norm_num [clamp01, min_def, max_def]
  · simp [leafFx, paintLeaf, genLeafHalf, TransformedLayer.type,
      TransformedLayer.coords, defaultAttrs, Ctx.save, Ctx.restore,
      Ctx.setFillStyle, Ctx.setStrokeStyle, Ctx.setLineWidth, Ctx.setLineDash,
      Ctx.fillRect, Ctx.strokeRect, DrawEffect.attrsOf]
